import Mathlib

/-!
Verification of the bounded result-set retrieval engine of `pymed`
(`pymed/api.py`), as a shallow embedding in Lean.

The embedding models:

* `_getArticleIds` (the recursive date-window partitioner) as a fuel-indexed
  function over an abstract search-endpoint oracle; the result also carries
  the trace of search requests issued, so that statements about the number
  and shape of search calls are expressible;
* `_exceededRateLimit` and the rate-limiting / timestamp-recording behaviour
  of `_get` as explicit state passing over a timestamp log;
* `getTotalResultsCount` statefully over a client record, to settle the
  frame claim about the default parameter map;
* the record-fetch batching (`get_publications_from_ids` / `batch_query`)
  over an abstract fetch oracle;
* `_getArticles` payload scanning over a model of XML element trees.

Timestamps are integers with one unit standing for one second.  Machine-level
concerns do not arise: Python integers are unbounded, so `Nat`/`Int` model
them directly.
-/

/-! ## Date windows and the search endpoint -/

/-- A date window as passed to `_getArticleIds`: the `min_year`, `max_year`,
`min_month`, `max_month`, `min_day`, `max_day` keyword arguments.  The Python
defaults are 1000, 3000, 1, 12, 1, 31. -/
structure Window where
  min_year : Nat
  max_year : Nat
  min_month : Nat
  max_month : Nat
  min_day : Nat
  max_day : Nat
deriving DecidableEq

/-- The part of an esearch response that `_getArticleIds` reads:
`esearchresult.count` (total matches) and `esearchresult.idlist`. -/
structure EsearchResult where
  count : Nat
  idlist : List Nat
deriving DecidableEq

/-- Abstract search endpoint: a response for each date window and `retmax`
value.  The query term and the identification parameters are fixed for a
whole `_getArticleIds` run, so they are absorbed into the oracle. -/
def Server : Type := Window → Nat → EsearchResult

/-- Lines 259-265 of `api.py`: `parameters["retmax"] = 10000` followed by
`if max_results < parameters["retmax"]: parameters["retmax"] = max_results`. -/
def effectiveRetmax (max_results : Nat) : Nat :=
  if max_results < 10000 then max_results else 10000

/-- Insert a value into a sorted duplicate-free list, keeping it sorted and
duplicate-free.  Used to model Python `sorted({...})` on a set literal. -/
def insortDedup (x : Nat) : List Nat → List Nat
  | [] => [x]
  | y :: ys => if x < y then x :: y :: ys else if x = y then y :: ys else y :: insortDedup x ys

/-- Model of Python `sorted({e for i in range(n)})`: the distinct elements of
the list, in ascending order. -/
def sortedSet (l : List Nat) : List Nat := l.foldr insortDedup []

/-- Sequentially combine the results of a list of recursive
`_getArticleIds` calls: concatenate the id lists (`article_ids += ...`) and
the request traces.  `none` (out of fuel) propagates. -/
def combineCalls : List (Option (List Nat × List Window)) → Option (List Nat × List Window)
  | [] => some ([], [])
  | o :: os =>
    match o with
    | none => none
    | some (ids, tr) =>
      match combineCalls os with
      | none => none
      | some (ids2, tr2) => some (ids ++ ids2, tr ++ tr2)

/-- Shallow embedding of `_getArticleIds` (`api.py` lines 235-331),
parameterised by the search oracle and `max_results`, with explicit fuel
(`none` means the fuel ran out before the recursion bottomed out).  The
result pairs the returned `article_ids` with the trace of search requests
issued, parent window first, sub-windows in call order.

Points of the source mirrored exactly:

* the split is taken when `total_result_count > retmax` with
  `retmax = effectiveRetmax max_results`;
* `batch_count = total_result_count // retmax + 1`;
* the year branch recurses once per sorted boundary with
  `min_year = i if i == min_year else i + 1`, `max_year = i + year_step`,
  and the month/day arguments falling back to their defaults `1, 12, 1, 31`
  because the recursive call does not pass them;
* `isinstance(year_gap / batch_count, float)` is always `True` in Python 3
  (true division always produces a `float`), so the extra recursive call
  pinned to `max_year` is issued unconditionally; the same holds in the
  month and day branches;
* the month branch is guarded by `min_month != min_month` and the day branch
  by `min_day != min_day` — both comparisons of a variable with itself,
  hence always false; they are transcribed literally;
* the final leaf returns the empty `article_ids` after one search call;
* when the split is not taken, the idlist of the single response is
  returned. -/
def getArticleIds (server : Server) (max_results : Nat) : Nat → Window → Option (List Nat × List Window)
  | 0, _ => none
  | fuel + 1, w =>
    let retmax := effectiveRetmax max_results
    let response := server w retmax
    let total_result_count := response.count
    if total_result_count > retmax then
      let batch_count := total_result_count / retmax + 1
      if w.min_year ≠ w.max_year then
        let year_gap := w.max_year - w.min_year
        let year_step := year_gap / batch_count
        let year_boundaries := sortedSet ((List.range batch_count).map fun i => w.min_year + year_step * i)
        match combineCalls (year_boundaries.map fun i =>
            getArticleIds server max_results fuel
              ⟨if i = w.min_year then i else i + 1, i + year_step, 1, 12, 1, 31⟩) with
        | none => none
        | some (loop_ids, loop_trace) =>
          match getArticleIds server max_results fuel ⟨w.max_year, w.max_year, 1, 12, 1, 31⟩ with
          | none => none
          | some (extra_ids, extra_trace) =>
            some (loop_ids ++ extra_ids, w :: (loop_trace ++ extra_trace))
      else if w.min_month ≠ w.min_month then
        let month_gap := w.max_month - w.min_month
        let month_step := month_gap / batch_count
        let month_boundaries := sortedSet ((List.range batch_count).map fun i => w.min_month + month_step * i)
        match combineCalls (month_boundaries.map fun i =>
            getArticleIds server max_results fuel
              ⟨w.min_year, w.max_year, if i = w.min_month then i else i + 1, i + month_step, 1, 31⟩) with
        | none => none
        | some (loop_ids, loop_trace) =>
          match getArticleIds server max_results fuel
              ⟨w.min_year, w.max_year, w.max_month, w.max_month, 1, 31⟩ with
          | none => none
          | some (extra_ids, extra_trace) =>
            some (loop_ids ++ extra_ids, w :: (loop_trace ++ extra_trace))
      else if w.min_day ≠ w.min_day then
        let day_gap := w.max_day - w.min_day
        let day_step := day_gap / batch_count
        let day_boundaries := sortedSet ((List.range batch_count).map fun i => w.min_day + day_step * i)
        match combineCalls (day_boundaries.map fun i =>
            getArticleIds server max_results fuel
              ⟨w.min_year, w.max_year, w.min_month, w.max_month,
                (if i = w.min_day then i else i + 1), i + day_step⟩) with
        | none => none
        | some (loop_ids, loop_trace) =>
          match getArticleIds server max_results fuel
              ⟨w.min_year, w.max_year, w.min_month, w.max_month, w.max_day, w.max_day⟩ with
          | none => none
          | some (extra_ids, extra_trace) =>
            some (loop_ids ++ extra_ids, w :: (loop_trace ++ extra_trace))
      else
        some ([], [w])
    else
      some (response.idlist, [w])

/-! ## Rate limiter and `_get` -/

/-- Line 162 of `api.py`: keep only the timestamps strictly newer than
`now - 1 second`.  Timestamps are integers, one unit per second. -/
def pruneRequests (now : Int) (requestsMade : List Int) : List Int :=
  requestsMade.filter fun requestTime => now - 1 < requestTime

/-- `_exceededRateLimit` (lines 154-165): prune the request log in place and
report whether strictly more requests than `rateLimit` remain in the trailing
second.  Returns the flag together with the updated log. -/
def exceededRateLimit (rateLimit : Nat) (now : Int) (requestsMade : List Int) : Bool × List Int :=
  let pruned := pruneRequests now requestsMade
  (decide (pruned.length > rateLimit), pruned)

/-- One `_get` call as seen by the rate limiter: the time of the final
admission check (the one the spin loop exits on), the time right after the
transport call returned, and whether the transport reported a 2xx status. -/
structure GetEvent where
  tCheck : Int
  tExec : Int
  ok : Bool
deriving DecidableEq

/-- Model of one `_get` call (lines 185-199).  The admission check at
`e.tCheck` prunes the log; if it still reports exceeded the call is not
admitted at that instant (`none` — the real code keeps spinning).  Once
admitted, the transport call runs: on success (`e.ok`) the timestamp
`e.tExec` is appended to the pruned log and nothing is raised; on a non-2xx
status `raise_for_status` raises before the append, so the log stays the
pruned log.  The result is `(raised, new log)`. -/
def getStep (rateLimit : Nat) (requestsMade : List Int) (e : GetEvent) : Option (Bool × List Int) :=
  let checked := exceededRateLimit rateLimit e.tCheck requestsMade
  if checked.fst then none
  else if e.ok then some (false, checked.snd ++ [e.tExec]) else some (true, checked.snd)

/-- Run a sequence of `_get` calls, collecting for each one the pruned log
length observed at its passing admission check.  `none` when some check in
the sequence does not pass (the spin loop would not exit at that instant). -/
def observedPrunedCounts (rateLimit : Nat) : List Int → List GetEvent → Option (List Nat)
  | _, [] => some []
  | requestsMade, e :: es =>
    let checked := exceededRateLimit rateLimit e.tCheck requestsMade
    if checked.fst then none
    else
      match observedPrunedCounts rateLimit
          (if e.ok then checked.snd ++ [e.tExec] else checked.snd) es with
      | some counts => some (checked.snd.length :: counts)
      | none => none

/-! ## Client state and `getTotalResultsCount` -/

/-- A value stored in the query parameter dict (`str`, `int` or a list of
ids in the source). -/
inductive Param where
  | str (v : String)
  | num (v : Nat)
  | idList (v : List Nat)
deriving DecidableEq

/-- Python dict assignment `d[k] = v` on a dict modelled as an insertion
ordered association list: overwrite in place if the key exists, append
otherwise (CPython keeps the original position of an existing key). -/
def dictInsert (k : String) (v : Param) : List (String × Param) → List (String × Param)
  | [] => [(k, v)]
  | (k2, v2) :: rest => if k = k2 then (k, v) :: rest else (k2, v2) :: dictInsert k v rest

/-- The mutable state of a `PubMed` client (`__init__`, lines 22-47):
`tool`, `email`, `_rateLimit = 3`, `_requestsMade = []` and the default
parameter dict `{"tool": tool, "email": email, "db": "pubmed"}`. -/
structure Client where
  tool : String
  email : String
  rateLimit : Nat
  requestsMade : List Int
  parameters : List (String × Param)
deriving DecidableEq

/-- `PubMed.__init__`. -/
def initClient (tool email : String) : Client :=
  ⟨tool, email, 3, [],
    [("tool", Param.str tool), ("email", Param.str email), ("db", Param.str "pubmed")]⟩

/-- Stateful model of `getTotalResultsCount` (lines 128-152) over a count
oracle keyed by the final request parameters.  `parameters = self.parameters.copy()`
is the binding of a fresh local dict: every later assignment hits the copy,
never the dict stored in the client.  The `_get` it performs is modelled as
in `getStep` for a successful request whose passing admission check happens
at `tCheck` and which finishes at `tExec`. -/
def getTotalResultsCountM (server : List (String × Param) → Nat) (c : Client)
    (query : String) (tCheck tExec : Int) : Option (Nat × Client) :=
  let parameters := c.parameters
  let parameters := dictInsert "term" (Param.str query) parameters
  let parameters := dictInsert "retmax" (Param.num 1) parameters
  let checked := exceededRateLimit c.rateLimit tCheck c.requestsMade
  if checked.fst then none
  else
    let parameters := dictInsert "retmode" (Param.str "json") parameters
    let total_results_count := server parameters
    some (total_results_count, { c with requestsMade := checked.snd ++ [tExec] })

/-! ## Record-fetch batching -/

/-- Modelled from the spec: `helpers.batches` is imported from
`pymed/helpers.py`, which is not under `src/`; §4.4 of the spec describes it
as splitting an id list into fixed-size batches (default 250) of consecutive
elements.  The counter argument bounds the recursion by the list length. -/
def batchesAux {α : Type} (n : Nat) : Nat → List α → List (List α)
  | 0, _ => []
  | _ + 1, [] => []
  | counter + 1, l => l.take n :: batchesAux n counter (l.drop n)

/-- Modelled from the spec: split a list into consecutive chunks of `n`
elements (the last chunk may be shorter). -/
def batches {α : Type} (l : List α) (n : Nat) : List (List α) :=
  batchesAux n l.length l

/-- `get_publications_from_ids` / `batch_query` (lines 94-126): fetch the
records batch by batch and flatten (`itertools.chain.from_iterable`).  The
per-batch fetch (`_getArticles` on one id batch) is the oracle
`fetchRecords`. -/
def fetchBatched {R : Type} (fetchRecords : List Nat → List R) (article_ids : List Nat)
    (n : Nat) : List R :=
  ((batches article_ids n).map fetchRecords).flatten

/-! ## Payload scanning in `_getArticles` -/

/-- A decoded XML element: a tag and the list of child elements (the only
structure `_getArticles` inspects). -/
inductive XmlElement where
  | element (tag : String) (children : List XmlElement)

/-- The tag of an element. -/
def XmlElement.tag : XmlElement → String
  | .element t _ => t

mutual

/-- Model of `ElementTree.Element.iter(tag)`: document-order traversal of the
subtree rooted at the element, yielding every element (the root included)
whose tag matches. -/
def iterTag (tag : String) : XmlElement → List XmlElement
  | .element t cs => (if t = tag then [XmlElement.element t cs] else []) ++ iterTagList tag cs

/-- `iterTag` mapped over a list of sibling elements, in order. -/
def iterTagList (tag : String) : List XmlElement → List XmlElement
  | [] => []
  | c :: cs => iterTag tag c ++ iterTagList tag cs

end

mutual

/-- All elements of the subtree in document order (preorder). -/
def docOrder : XmlElement → List XmlElement
  | .element t cs => XmlElement.element t cs :: docOrderList cs

/-- `docOrder` mapped over a list of sibling elements, in order. -/
def docOrderList : List XmlElement → List XmlElement
  | [] => []
  | c :: cs => docOrder c ++ docOrderList cs

end

/-- The yield order of `_getArticles` (lines 226-233): first
`root.iter("PubmedArticle")` decoded through the `PubMedArticle` constructor,
then `root.iter("PubmedBookArticle")` decoded through `PubMedBookArticle`.
The two record constructors live in `pymed/article.py` and `pymed/book.py`
(external record parsers per §6 of the spec) and are abstract here. -/
def getArticles {R : Type} (mkArticle mkBook : XmlElement → R) (root : XmlElement) : List R :=
  (iterTag "PubmedArticle" root).map mkArticle ++ (iterTag "PubmedBookArticle" root).map mkBook

/-! ## Stateful models of the public operations

The pure `getArticleIds` already computes, besides the ids, the trace of
search requests a resolution performs.  The client-state behaviour of each
public operation is obtained by replaying the per-request state effects of
`_get` over that trace: every search request of `_getArticleIds` and every
fetch request of `_getArticles` builds its parameter dict from
`self.parameters.copy()` (lines 255 and 218, as line 139 does for
`getTotalResultsCount`), so every parameter assignment — including
`retmode` inside `_get` (line 190) — hits the per-call local dict, while
the admission check prunes and a successful request appends to
`self._requestsMade`.  The local dict is returned by the step functions to
make visible that it absorbs the assignments; callers discard it when the
call returns, exactly as the source drops the local `parameters` binding.
Responses travel through the same oracles as in the pure model; a non-2xx
transport outcome raises out of the whole operation and is modelled as
`none`, as is an admission check that does not pass at its scheduled
instant.  Generators (`query`, `get_publications_from_ids`, `batch_query`)
are modelled fully consumed. -/

/-- The default date window of `_getArticleIds` (line 235-236): public
operations call it without date arguments. -/
def defaultWindow : Window := ⟨1000, 3000, 1, 12, 1, 31⟩

/-- Client-state and parameter-dict behaviour of one search request of
`_getArticleIds` (lines 254-268 with `_get`, lines 185-199): copy the
stored map, set `term` (line 258), `retmax = 10000` (line 259), `mindate`
and `maxdate` (lines 260-261), lower `retmax` to `max_results` when
smaller (lines 263-265), pass the admission check at `e.tCheck`, set
`retmode = "json"` on the local dict (line 190), perform the request and
append `e.tExec` to the pruned log (line 199). -/
def searchStateStep (query : String) (max_results : Nat) (w : Window) (c : Client)
    (e : GetEvent) : Option (List (String × Param) × Client) :=
  let parameters := c.parameters
  let parameters := dictInsert "term" (Param.str query) parameters
  let parameters := dictInsert "retmax" (Param.num 10000) parameters
  let parameters := dictInsert "mindate"
    (Param.str (toString w.min_year ++ "/" ++ toString w.min_month ++ "/" ++ toString w.min_day))
    parameters
  let parameters := dictInsert "maxdate"
    (Param.str (toString w.max_year ++ "/" ++ toString w.max_month ++ "/" ++ toString w.max_day))
    parameters
  let parameters :=
    if max_results < 10000 then dictInsert "retmax" (Param.num max_results) parameters
    else parameters
  let checked := exceededRateLimit c.rateLimit e.tCheck c.requestsMade
  if checked.fst then none
  else if e.ok then
    let parameters := dictInsert "retmode" (Param.str "json") parameters
    some (parameters, { c with requestsMade := checked.snd ++ [e.tExec] })
  else none

/-- Client-state and parameter-dict behaviour of the fetch request of one
`_getArticles` call (lines 217-224 with `_get`): copy the stored map, set
`id` to the batch (line 219), pass the admission check, set
`retmode = "xml"` on the local dict (line 190), perform the request and
append the timestamp. -/
def fetchStateStep (article_ids : List Nat) (c : Client) (e : GetEvent) :
    Option (List (String × Param) × Client) :=
  let parameters := c.parameters
  let parameters := dictInsert "id" (Param.idList article_ids) parameters
  let checked := exceededRateLimit c.rateLimit e.tCheck c.requestsMade
  if checked.fst then none
  else if e.ok then
    let parameters := dictInsert "retmode" (Param.str "xml") parameters
    some (parameters, { c with requestsMade := checked.snd ++ [e.tExec] })
  else none

/-- Replay the state effects of the search requests of a resolution, one
scheduled `GetEvent` per window of the request trace, in trace order. -/
def runSearchesS (query : String) (max_results : Nat) :
    List Window → Client → List GetEvent → Option (Client × List GetEvent)
  | [], c, events => some (c, events)
  | w :: ws, c, events =>
    match events with
    | [] => none
    | e :: rest =>
      match searchStateStep query max_results w c e with
      | none => none
      | some (_, c1) => runSearchesS query max_results ws c1 rest

/-- One `_getArticles` call (lines 207-233) as a state transformer: the
fetch endpoint oracle maps the id batch to the decoded payload root, and
the records are the payload scan of `getArticles`. -/
def getArticlesS (fetchServer : List Nat → XmlElement) {R : Type}
    (mkArticle mkBook : XmlElement → R) (article_ids : List Nat) (c : Client)
    (events : List GetEvent) : Option (List R × Client × List GetEvent) :=
  match events with
  | [] => none
  | e :: rest =>
    match fetchStateStep article_ids c e with
    | none => none
    | some (_, c1) => some (getArticles mkArticle mkBook (fetchServer article_ids), c1, rest)

/-- Run one `_getArticles` call per batch, in order, collecting each
batch's record list (the shape `batch_query` yields). -/
def runFetchBatchesS (fetchServer : List Nat → XmlElement) {R : Type}
    (mkArticle mkBook : XmlElement → R) :
    List (List Nat) → Client → List GetEvent → Option (List (List R) × Client × List GetEvent)
  | [], c, events => some ([], c, events)
  | b :: bs, c, events =>
    match getArticlesS fetchServer mkArticle mkBook b c events with
    | none => none
    | some (rs, c1, ev1) =>
      match runFetchBatchesS fetchServer mkArticle mkBook bs c1 ev1 with
      | none => none
      | some (rss, c2, ev2) => some (rs :: rss, c2, ev2)

/-- `query_publication_ids` (lines 76-91): resolve the ids over the default
date window and replay the client-state effects of every search request the
resolution performs. -/
def queryPublicationIdsS (server : Server) (query : String) (max_results fuel : Nat)
    (c : Client) (events : List GetEvent) : Option (List Nat × Client × List GetEvent) :=
  match getArticleIds server max_results fuel defaultWindow with
  | none => none
  | some (article_ids, trace) =>
    match runSearchesS query max_results trace c events with
    | none => none
    | some (c1, rest) => some (article_ids, c1, rest)

/-- `get_publications_from_ids` (lines 94-118): batch the ids by 250, fetch
each batch through `_getArticles` and flatten
(`itertools.chain.from_iterable`), modelled fully consumed. -/
def getPublicationsFromIdsS (fetchServer : List Nat → XmlElement) {R : Type}
    (mkArticle mkBook : XmlElement → R) (article_ids : List Nat) (c : Client)
    (events : List GetEvent) : Option (List R × Client × List GetEvent) :=
  match runFetchBatchesS fetchServer mkArticle mkBook (batches article_ids 250) c events with
  | none => none
  | some (articles, c1, rest) => some (articles.flatten, c1, rest)

/-- `query` (lines 49-73): resolve the ids, then fetch them in batches of
250 and flatten, modelled fully consumed. -/
def queryS (server : Server) (fetchServer : List Nat → XmlElement) {R : Type}
    (mkArticle mkBook : XmlElement → R) (query : String) (max_results fuel : Nat)
    (c : Client) (events : List GetEvent) : Option (List R × Client × List GetEvent) :=
  match queryPublicationIdsS server query max_results fuel c events with
  | none => none
  | some (article_ids, c1, ev1) =>
    getPublicationsFromIdsS fetchServer mkArticle mkBook article_ids c1 ev1

/-- `batch_query` (lines 120-126): resolve the ids with
`max_results = 10000000`, then yield one decoded batch of size
`batch_size` at a time, modelled fully consumed. -/
def batchQueryS (server : Server) (fetchServer : List Nat → XmlElement) {R : Type}
    (mkArticle mkBook : XmlElement → R) (query : String) (batch_size fuel : Nat)
    (c : Client) (events : List GetEvent) :
    Option (List (List R) × Client × List GetEvent) :=
  match getArticleIds server 10000000 fuel defaultWindow with
  | none => none
  | some (article_ids, trace) =>
    match runSearchesS query 10000000 trace c events with
    | none => none
    | some (c1, ev1) =>
      runFetchBatchesS fetchServer mkArticle mkBook (batches article_ids batch_size) c1 ev1

/-! ## Concrete oracles used in counterexamples and witnesses -/

/-- A search endpoint reporting 20000 matches for every window. -/
def serverC1 : Server := fun _ _ => ⟨20000, [10, 20]⟩

/-- A search endpoint reporting 100 matches for the two-year window
2000-2001 and 3 matches (id 7) for every other window. -/
def serverC2 : Server := fun w _ =>
  if w.min_year = 2000 ∧ w.max_year = 2001 then ⟨100, [9, 9, 9, 9, 9]⟩ else ⟨3, [7]⟩

/-- A search endpoint reporting 20000 matches for every window. -/
def serverC3 : Server := fun _ _ => ⟨20000, [1, 2, 3]⟩

/-- A search endpoint reporting no matches at all. -/
def serverC3W : Server := fun _ _ => ⟨0, []⟩

/-- A search endpoint reporting 20000 matches for every window. -/
def serverC4W : Server := fun _ _ => ⟨20000, [1]⟩

/-- A search endpoint reporting 15000 matches for the three-year window
2000-2002 and a single match, tagged with the window's `min_year`, for every
other window. -/
def serverC5 : Server := fun w _ =>
  if w = ⟨2000, 2002, 1, 12, 1, 31⟩ then ⟨15000, []⟩ else ⟨1, [w.min_year]⟩

/-- A count endpoint reporting 5 matches for every parameter dict. -/
def serverC8 : List (String × Param) → Nat := fun _ => 5

/-- A search endpoint reporting two matches for every window. -/
def serverQW : Server := fun _ _ => ⟨2, [5, 6]⟩

/-- A fetch endpoint returning an empty payload root for every batch. -/
def fetchServerW : List Nat → XmlElement := fun _ => XmlElement.element "PubmedArticleSet" []

/-- A record decoder collapsing every element to the number 7. -/
def mkRecW : XmlElement → Nat := fun _ => 7

/-- Two records per identifier. -/
def perIdW : Nat → List Nat := fun i => [i, i + 100]

/-- A fetch endpoint returning, for a batch, the records of its ids in
order. -/
def fetchW : List Nat → List Nat := fun b => b.flatMap perIdW

/-! ## Helper lemmas -/

theorem mem_insortDedup {x a : Nat} {l : List Nat} (h : x ∈ insortDedup a l) : x = a ∨ x ∈ l := by
  induction l with
  | nil =>
    simp only [insortDedup, List.mem_singleton] at h
    exact Or.inl h
  | cons y ys ih =>
    simp only [insortDedup] at h
    by_cases h1 : a < y
    · rw [if_pos h1] at h
      rcases List.mem_cons.mp h with h2 | h2
      · exact Or.inl h2
      · exact Or.inr h2
    · rw [if_neg h1] at h
      by_cases h2 : a = y
      · rw [if_pos h2] at h
        exact Or.inr h
      · rw [if_neg h2] at h
        rcases List.mem_cons.mp h with h3 | h3
        · exact Or.inr (by simp [h3])
        · rcases ih h3 with h4 | h4
          · exact Or.inl h4
          · exact Or.inr (List.mem_cons_of_mem _ h4)

theorem mem_sortedSet {x : Nat} {l : List Nat} (h : x ∈ sortedSet l) : x ∈ l := by
  induction l with
  | nil => simp [sortedSet] at h
  | cons y ys ih =>
    have h2 : x ∈ insortDedup y (sortedSet ys) := h
    rcases mem_insortDedup h2 with h3 | h3
    · simp [h3]
    · exact List.mem_cons_of_mem _ (ih h3)

theorem combineCalls_isSome_of {l : List (Option (List Nat × List Window))}
    (h : ∀ o ∈ l, o.isSome) : (combineCalls l).isSome := by
  induction l with
  | nil => simp [combineCalls]
  | cons o os ih =>
    obtain ⟨⟨ids, tr⟩, ho⟩ := Option.isSome_iff_exists.mp (h o (List.mem_cons_self o os))
    obtain ⟨⟨ids2, tr2⟩, hos⟩ :=
      Option.isSome_iff_exists.mp (ih fun o2 h2 => h o2 (List.mem_cons_of_mem _ h2))
    simp [combineCalls, ho, hos]

/-! ## Claim theorems -/

/-- C2 (amended): for every query whose server-reported total match count is
at most the effective retmax — the minimum of `max_results` and the server
cap 10000, computed on lines 259-265 — `_getArticleIds` issues exactly one
search call (the request trace is the single parent window) and returns
exactly the idlist of that single response, unmodified and in server
order. -/
theorem c2_single_call_when_count_le_retmax (server : Server) (max_results fuel : Nat)
    (w : Window)
    (hcount : ¬ (server w (effectiveRetmax max_results)).count > effectiveRetmax max_results) :
    getArticleIds server max_results (fuel + 1) w
      = some ((server w (effectiveRetmax max_results)).idlist, [w]) := by
  simp only [getArticleIds]
  rw [if_neg hcount]

/-- Witness for `c2_single_call_when_count_le_retmax`: a query reporting 5
matches with `max_results = 100` resolves in one call to the single idlist. -/
theorem c2_single_call_witness :
    getArticleIds serverC2 100 1 ⟨2005, 2006, 1, 12, 1, 31⟩
      = some ((serverC2 ⟨2005, 2006, 1, 12, 1, 31⟩ (effectiveRetmax 100)).idlist,
          [⟨2005, 2006, 1, 12, 1, 31⟩]) :=
  c2_single_call_when_count_le_retmax serverC2 100 0 ⟨2005, 2006, 1, 12, 1, 31⟩ (by decide)

/-- C2 counterexample: the claim bounds the single-call case by the server
cap 10000, but the code splits whenever the count exceeds the effective
retmax (line 276 compares against `parameters["retmax"]`, which lines
264-265 lower to `max_results`).  Window 2000-2001 reports 100 matches —
well under the cap — with `max_results = 5`, yet three search calls are
issued (the trace has three windows) and the returned ids `[7, 7]` are not
the single response idlist `[9, 9, 9, 9, 9]`. -/
theorem c2_counterexample_retmax_below_cap :
    (serverC2 ⟨2000, 2001, 1, 12, 1, 31⟩ (effectiveRetmax 5)).count ≤ 10000 ∧
    getArticleIds serverC2 5 2 ⟨2000, 2001, 1, 12, 1, 31⟩ =
      some ([7, 7],
        [⟨2000, 2001, 1, 12, 1, 31⟩, ⟨2000, 2000, 1, 12, 1, 31⟩, ⟨2001, 2001, 1, 12, 1, 31⟩]) ∧
    [7, 7] ≠ (serverC2 ⟨2000, 2001, 1, 12, 1, 31⟩ (effectiveRetmax 5)).idlist := by
  decide

/-- C4: whenever a window has `min_year == max_year` and its reported count
exceeds the effective retmax, `_getArticleIds` returns the empty id list
after its single search call, regardless of the month span and the day span
of the window: the month branch guard `min_month != min_month` (line 292)
and the day branch guard `min_day != min_day` (line 306) are always false,
so control falls through to the leaf that returns the empty placeholder
list. -/
theorem c4_single_year_over_cap_empty (server : Server) (max_results fuel : Nat) (w : Window)
    (hy : w.min_year = w.max_year)
    (hcount : (server w (effectiveRetmax max_results)).count > effectiveRetmax max_results) :
    getArticleIds server max_results (fuel + 1) w = some ([], [w]) := by
  simp only [getArticleIds]
  rw [if_pos hcount, if_neg (by simp [hy]), if_neg (fun h2 => h2 rfl), if_neg (fun h2 => h2 rfl)]

/-- Witness for `c4_single_year_over_cap_empty`: a single-year window with
full month and day span reporting 20000 matches yields the empty list. -/
theorem c4_single_year_over_cap_empty_witness :
    getArticleIds serverC4W 10000 1 ⟨2000, 2000, 1, 12, 1, 31⟩
      = some ([], [⟨2000, 2000, 1, 12, 1, 31⟩]) :=
  c4_single_year_over_cap_empty serverC4W 10000 0 ⟨2000, 2000, 1, 12, 1, 31⟩ rfl (by decide)

/-- C1: evaluation of the code at the failing input.  The window is the
single year 1999 with the non-trivial month span 3-9 and the reported count
20000 exceeds the effective retmax 10000, so the claimed month-boundary
splitting should recurse; but the month branch guard on line 292 is
`min_month != min_month` — a comparison of the variable with itself, always
false — so no month boundaries are computed, no recursive call is made (the
request trace is the single parent window) and the empty list is returned. -/
theorem c1_month_split_dead_code_eval :
    getArticleIds serverC1 10000 1 ⟨1999, 1999, 3, 9, 1, 31⟩
      = some ([], [⟨1999, 1999, 3, 9, 1, 31⟩]) ∧
    (⟨1999, 1999, 3, 9, 1, 31⟩ : Window).min_month ≠ (⟨1999, 1999, 3, 9, 1, 31⟩ : Window).max_month ∧
    (serverC1 ⟨1999, 1999, 3, 9, 1, 31⟩ (effectiveRetmax 10000)).count > effectiveRetmax 10000 := by
  decide

/-- C3 counterexample: the claim says the recursion narrows year, then
month, then day ranges, bottoming out at single-day windows.  At a
single-year window whose count 20000 exceeds the cap and whose month span
(1-12) and day span (1-31) are both non-trivial, the code bottoms out
immediately — one search call, no recursion, empty result — because the
month and day guards compare a variable with itself; the recursion never
narrows a month or day range and never reaches a single-day window. -/
theorem c3_counterexample_bottoms_out_above_day :
    getArticleIds serverC3 10000 1 ⟨2000, 2000, 1, 12, 1, 31⟩
      = some ([], [⟨2000, 2000, 1, 12, 1, 31⟩]) ∧
    (serverC3 ⟨2000, 2000, 1, 12, 1, 31⟩ (effectiveRetmax 10000)).count > effectiveRetmax 10000 ∧
    (⟨2000, 2000, 1, 12, 1, 31⟩ : Window).min_month ≠ (⟨2000, 2000, 1, 12, 1, 31⟩ : Window).max_month ∧
    (⟨2000, 2000, 1, 12, 1, 31⟩ : Window).min_day ≠ (⟨2000, 2000, 1, 12, 1, 31⟩ : Window).max_day := by
  decide

/-- C3 (amended): the recursion of `_getArticleIds` always terminates for
positive `max_results`: every recursive call strictly narrows the year span
(the sub-windows of a split span `year_step` or `year_step - 1` years with
`year_step = year_gap // batch_count < year_gap`, and the extra call is
pinned to the single year `max_year`), and a window with
`min_year == max_year` never recurses at all because the month and day
branches are unreachable — so recursion bottoms out at single-year windows,
and fuel `year span + 1` always suffices. -/
theorem c3_getArticleIds_terminates (server : Server) (max_results : Nat) (fuel : Nat) :
    ∀ w : Window, 1 ≤ max_results → w.min_year ≤ w.max_year →
      w.max_year - w.min_year + 1 ≤ fuel →
      (getArticleIds server max_results fuel w).isSome := by
  induction fuel with
  | zero => intro w _ _ hfuel; omega
  | succ fuel ih =>
    intro w hmr hw hfuel
    simp only [getArticleIds]
    by_cases htot : (server w (effectiveRetmax max_results)).count > effectiveRetmax max_results
    case neg => rw [if_neg htot]; simp
    case pos =>
      rw [if_pos htot]
      by_cases hyy : w.min_year ≠ w.max_year
      case neg =>
        rw [if_neg hyy, if_neg (fun h2 => h2 rfl), if_neg (fun h2 => h2 rfl)]
        simp
      case pos =>
        rw [if_pos hyy]
        have hretmax : 1 ≤ effectiveRetmax max_results := by
          unfold effectiveRetmax
          split <;> omega
        have hbc : 2 ≤ (server w (effectiveRetmax max_results)).count / effectiveRetmax max_results + 1 := by
          have h1 : 1 ≤ (server w (effectiveRetmax max_results)).count / effectiveRetmax max_results :=
            (Nat.one_le_div_iff (by omega)).mpr (Nat.le_of_lt htot)
          omega
        have hgap : 1 ≤ w.max_year - w.min_year := by omega
        have hstep :
            (w.max_year - w.min_year) /
                ((server w (effectiveRetmax max_results)).count / effectiveRetmax max_results + 1)
              < w.max_year - w.min_year :=
          Nat.div_lt_self (by omega) (by omega)
        have hloop : ∀ o ∈ (sortedSet ((List.range
            ((server w (effectiveRetmax max_results)).count / effectiveRetmax max_results + 1)).map
              fun i => w.min_year + (w.max_year - w.min_year) /
                ((server w (effectiveRetmax max_results)).count / effectiveRetmax max_results + 1) * i)).map
            fun i => getArticleIds server max_results fuel
              ⟨if i = w.min_year then i else i + 1,
                i + (w.max_year - w.min_year) /
                  ((server w (effectiveRetmax max_results)).count / effectiveRetmax max_results + 1),
                1, 12, 1, 31⟩, o.isSome := by
          intro o ho
          obtain ⟨i, hi, rfl⟩ := List.mem_map.mp ho
          by_cases hk0 : i = w.min_year
          · rw [if_pos hk0]
            apply ih _ hmr (by simp)
            simp only
            omega
          · rw [if_neg hk0]
            have hi2 := mem_sortedSet hi
            obtain ⟨k, _, hk⟩ := List.mem_map.mp hi2
            have hstep1 : 1 ≤ (w.max_year - w.min_year) /
                ((server w (effectiveRetmax max_results)).count / effectiveRetmax max_results + 1) := by
              rcases Nat.eq_zero_or_pos ((w.max_year - w.min_year) /
                  ((server w (effectiveRetmax max_results)).count / effectiveRetmax max_results + 1))
                with h0 | h0
              · rw [h0] at hk
                simp at hk
                omega
              · exact h0
            apply ih _ hmr (by simp; omega)
            simp only
            omega
        obtain ⟨⟨loop_ids, loop_trace⟩, hcomb⟩ :=
          Option.isSome_iff_exists.mp (combineCalls_isSome_of hloop)
        rw [hcomb]
        have hextra := ih ⟨w.max_year, w.max_year, 1, 12, 1, 31⟩ hmr (le_refl _) (by simp; omega)
        obtain ⟨⟨extra_ids, extra_trace⟩, hex⟩ := Option.isSome_iff_exists.mp hextra
        rw [hex]
        simp

/-- Witness for `c3_getArticleIds_terminates`: fuel 2 settles a two-year
window against a server reporting no matches. -/
theorem c3_getArticleIds_terminates_witness :
    (getArticleIds serverC3W 1 2 ⟨2000, 2001, 1, 12, 1, 31⟩).isSome = true :=
  c3_getArticleIds_terminates serverC3W 1 2 ⟨2000, 2001, 1, 12, 1, 31⟩ (by decide) (by decide)
    (by decide)

/-- C5 counterexample: window 2000-2002 reports 15000 matches with retmax
10000, so `batch_count = 2` and the year gap 2 divides evenly
(`2 % 2 = 0`); the claim then forbids the extra recursive call pinned to
`max_year`.  But `isinstance(year_gap / batch_count, float)` on line 286 is
always true in Python 3, so the pinned call is issued anyway: the request
trace ends with a second query of the single-year window 2002-2002 (already
covered by the boundary pair starting at 2001+1) and its id 2002 is
appended again, giving `[2000, 2002, 2002]` instead of the boundary-pair
concatenation `[2000, 2002]`. -/
theorem c5_counterexample_pinned_call_even_division :
    ((⟨2000, 2002, 1, 12, 1, 31⟩ : Window).max_year - (⟨2000, 2002, 1, 12, 1, 31⟩ : Window).min_year)
        % ((serverC5 ⟨2000, 2002, 1, 12, 1, 31⟩ (effectiveRetmax 10000)).count / effectiveRetmax 10000 + 1)
      = 0 ∧
    getArticleIds serverC5 10000 2 ⟨2000, 2002, 1, 12, 1, 31⟩ =
      some ([2000, 2002, 2002],
        [⟨2000, 2002, 1, 12, 1, 31⟩, ⟨2000, 2001, 1, 12, 1, 31⟩,
         ⟨2002, 2002, 1, 12, 1, 31⟩, ⟨2002, 2002, 1, 12, 1, 31⟩]) ∧
    [2000, 2002, 2002] ≠ [2000, 2002] := by
  decide

/-- C5 (amended): during a year-range split of `_getArticleIds` the extra
recursive call pinned to `max_year` alone is always issued — the guard
`isinstance(year_gap / batch_count, float)` on line 286 holds for every
operand pair under Python 3 true division, so no remainder condition is
checked: whenever the split returns `some (ids, tr)` and the pinned
single-year call returns `some (extra_ids, extra_tr)`, the returned ids end
with `extra_ids` and the trace starts with the parent window and ends with
`extra_tr`. -/
theorem c5_year_split_always_pins_max_year (server : Server) (max_results fuel : Nat)
    (w : Window) (ids extra_ids : List Nat) (tr extra_tr : List Window)
    (htot : (server w (effectiveRetmax max_results)).count > effectiveRetmax max_results)
    (hyy : w.min_year ≠ w.max_year)
    (h : getArticleIds server max_results (fuel + 1) w = some (ids, tr))
    (hextra : getArticleIds server max_results fuel ⟨w.max_year, w.max_year, 1, 12, 1, 31⟩
      = some (extra_ids, extra_tr)) :
    ids.drop (ids.length - extra_ids.length) = extra_ids ∧
    tr.drop (tr.length - extra_tr.length) = extra_tr ∧
    tr.take 1 = [w] := by
  simp only [getArticleIds] at h
  rw [if_pos htot, if_pos hyy] at h
  split at h
  · cases h
  · rw [hextra] at h
    rename_i loop_ids loop_trace heq
    simp only [Option.some.injEq, Prod.mk.injEq] at h
    obtain ⟨hids, htr⟩ := h
    subst hids htr
    refine ⟨?_, ?_, rfl⟩
    · rw [List.length_append, Nat.add_sub_cancel, List.drop_left]
    · have h2 : w :: (loop_trace ++ extra_tr) = (w :: loop_trace) ++ extra_tr := by
        simp
      rw [h2, List.length_append, Nat.add_sub_cancel, List.drop_left]

/-- Witness for `c5_year_split_always_pins_max_year`, at the even-division
input of the counterexample: the pinned call returns `([2002], ...)` and
the parent result ends with it. -/
theorem c5_year_split_pins_witness :
    ([2000, 2002, 2002] : List Nat).drop ([2000, 2002, 2002].length - [2002].length) = [2002] ∧
    ([⟨2000, 2002, 1, 12, 1, 31⟩, ⟨2000, 2001, 1, 12, 1, 31⟩,
      ⟨2002, 2002, 1, 12, 1, 31⟩, ⟨2002, 2002, 1, 12, 1, 31⟩] : List Window).drop
        ([(⟨2000, 2002, 1, 12, 1, 31⟩ : Window), ⟨2000, 2001, 1, 12, 1, 31⟩,
          ⟨2002, 2002, 1, 12, 1, 31⟩, ⟨2002, 2002, 1, 12, 1, 31⟩].length
          - [(⟨2002, 2002, 1, 12, 1, 31⟩ : Window)].length)
      = [⟨2002, 2002, 1, 12, 1, 31⟩] ∧
    ([⟨2000, 2002, 1, 12, 1, 31⟩, ⟨2000, 2001, 1, 12, 1, 31⟩,
      ⟨2002, 2002, 1, 12, 1, 31⟩, ⟨2002, 2002, 1, 12, 1, 31⟩] : List Window).take 1
      = [⟨2000, 2002, 1, 12, 1, 31⟩] :=
  c5_year_split_always_pins_max_year serverC5 10000 1 ⟨2000, 2002, 1, 12, 1, 31⟩
    [2000, 2002, 2002] [2002]
    [⟨2000, 2002, 1, 12, 1, 31⟩, ⟨2000, 2001, 1, 12, 1, 31⟩,
     ⟨2002, 2002, 1, 12, 1, 31⟩, ⟨2002, 2002, 1, 12, 1, 31⟩]
    [⟨2002, 2002, 1, 12, 1, 31⟩]
    (by decide) (by decide) (by decide) (by decide)

/-- C6: along any sequence of requests issued through `_get`, the rate
limiter never admits a request while more than `rateLimit` (the ceiling,
3 by default) timestamps remain in the trailing one-second window: at the
moment of each passing admission check, after pruning, the observed log
length is at most the ceiling, because `_exceededRateLimit` reports
exceeded exactly when the pruned length is strictly greater than the
ceiling and `_get` only proceeds once that report is false. -/
theorem c6_admitted_counts_within_ceiling (rateLimit : Nat) (log : List Int)
    (events : List GetEvent) (counts : List Nat)
    (h : observedPrunedCounts rateLimit log events = some counts) :
    counts.all (fun c => decide (c ≤ rateLimit)) = true := by
  induction events generalizing log counts with
  | nil =>
    simp only [observedPrunedCounts, Option.some.injEq] at h
    simp [← h]
  | cons e es ih =>
    simp only [observedPrunedCounts] at h
    by_cases hex : (exceededRateLimit rateLimit e.tCheck log).fst = true
    · rw [if_pos hex] at h
      cases h
    · rw [if_neg hex] at h
      rcases hrec : observedPrunedCounts rateLimit
          (if e.ok then (exceededRateLimit rateLimit e.tCheck log).snd ++ [e.tExec]
            else (exceededRateLimit rateLimit e.tCheck log).snd) es with _ | counts2
      · rw [hrec] at h
        cases h
      · rw [hrec] at h
        simp only [Option.some.injEq] at h
        have hlen : (exceededRateLimit rateLimit e.tCheck log).snd.length ≤ rateLimit := by
          simp only [exceededRateLimit, decide_eq_true_eq] at hex ⊢
          omega
        rw [← h]
        simp only [List.all_cons, Bool.and_eq_true, decide_eq_true_eq]
        exact ⟨hlen, ih _ _ hrec⟩

/-- Witness for `c6_admitted_counts_within_ceiling`: two back-to-back
requests at time 0 against the default ceiling 3 observe pruned lengths 0
and 1, both within the ceiling. -/
theorem c6_admitted_counts_witness :
    ([0, 1] : List Nat).all (fun c => decide (c ≤ 3)) = true :=
  c6_admitted_counts_within_ceiling 3 [] [⟨0, 0, true⟩, ⟨0, 0, true⟩] [0, 1] (by decide)

/-- C7 counterexample: the claim asserts the request log is unchanged by a
failed request, but `_exceededRateLimit` reassigns `self._requestsMade` to
its pruned value during the admission check of every `_get` call, failed or
not.  A log holding the stale timestamp 0, checked at time 10 before a
request that fails, comes out as the empty list, not `[0]`. -/
theorem c7_counterexample_prune_on_error :
    getStep 3 [0] ⟨10, 10, false⟩ = some (true, []) ∧ ([] : List Int) ≠ [0] := by
  decide

/-- C7 (amended): when the transport reports a non-2xx status,
`raise_for_status` raises immediately to the caller — `_get` contains no
retry, the single transport call per invocation being visible in the model
— and on that error path no timestamp is appended to the request log: the
log after the call is exactly the pruned log of the admission check, a
sublist of the prior log (entries only expire, none are added).  A
timestamp is appended only when the same call succeeds. -/
theorem c7_error_path_no_append (rateLimit : Nat) (log : List Int) (tCheck tExec : Int)
    (raised : Bool) (log2 : List Int)
    (h : getStep rateLimit log ⟨tCheck, tExec, false⟩ = some (raised, log2)) :
    raised = true ∧
    log2 = pruneRequests tCheck log ∧
    log2.Sublist log ∧
    getStep rateLimit log ⟨tCheck, tExec, true⟩
      = some (false, pruneRequests tCheck log ++ [tExec]) := by
  simp only [getStep] at h ⊢
  by_cases hex : (exceededRateLimit rateLimit tCheck log).fst = true
  · rw [if_pos hex] at h
    cases h
  · rw [if_neg hex] at h ⊢
    simp only [Bool.false_eq_true, if_false, Option.some.injEq, Prod.mk.injEq] at h
    obtain ⟨h1, h2⟩ := h
    have hsnd : (exceededRateLimit rateLimit tCheck log).snd = pruneRequests tCheck log := rfl
    rw [hsnd] at h2
    refine ⟨h1.symm, h2.symm, ?_, by simp [hsnd]⟩
    rw [← h2]
    exact List.filter_sublist log

/-- Witness for `c7_error_path_no_append`: the concrete failed request of
the counterexample — the stale timestamp is pruned, nothing is appended,
and the same call succeeding would have appended its timestamp. -/
theorem c7_error_path_witness :
    (true : Bool) = true ∧
    ([] : List Int) = pruneRequests 10 [0] ∧
    ([] : List Int).Sublist [0] ∧
    getStep 3 [0] ⟨10, 10, true⟩ = some (false, pruneRequests 10 [0] ++ [10]) :=
  c7_error_path_no_append 3 [0] 10 10 true [] (by decide)

/-- C8 counterexample: the claim asserts every call mutates the stored
default parameter map, but `getTotalResultsCount` (like `_getArticleIds`
and `_getArticles`) starts from `self.parameters.copy()`, so all later
parameter assignments — including `retmode` inside `_get` — hit the copy.
A freshly initialised client performing one total-count lookup comes out
with its parameter map exactly as it was (only the request log changed). -/
theorem c8_counterexample_parameters_unchanged :
    getTotalResultsCountM serverC8 (initClient "my_tool" "my_email@example.com") "cancer" 0 0
      = some (5, { initClient "my_tool" "my_email@example.com" with requestsMade := [0] }) ∧
    ({ initClient "my_tool" "my_email@example.com" with requestsMade := [0] } : Client).parameters
      = (initClient "my_tool" "my_email@example.com").parameters := by
  decide

theorem searchStateStep_frame (query : String) (max_results : Nat) (w : Window) (c : Client)
    (e : GetEvent) (p : List (String × Param)) (c2 : Client)
    (h : searchStateStep query max_results w c e = some (p, c2)) :
    c2.parameters = c.parameters ∧
    c2.requestsMade = pruneRequests e.tCheck c.requestsMade ++ [e.tExec] := by
  simp only [searchStateStep] at h
  by_cases hex : (exceededRateLimit c.rateLimit e.tCheck c.requestsMade).fst = true
  · rw [if_pos hex] at h
    cases h
  · rw [if_neg hex] at h
    cases hok : e.ok with
    | false =>
      rw [hok] at h
      simp at h
    | true =>
      rw [hok] at h
      simp only [if_true] at h
      simp only [Option.some.injEq, Prod.mk.injEq] at h
      obtain ⟨-, h2⟩ := h
      rw [← h2]
      exact ⟨rfl, rfl⟩

theorem fetchStateStep_frame (article_ids : List Nat) (c : Client) (e : GetEvent)
    (p : List (String × Param)) (c2 : Client)
    (h : fetchStateStep article_ids c e = some (p, c2)) :
    c2.parameters = c.parameters ∧
    c2.requestsMade = pruneRequests e.tCheck c.requestsMade ++ [e.tExec] := by
  simp only [fetchStateStep] at h
  by_cases hex : (exceededRateLimit c.rateLimit e.tCheck c.requestsMade).fst = true
  · rw [if_pos hex] at h
    cases h
  · rw [if_neg hex] at h
    cases hok : e.ok with
    | false =>
      rw [hok] at h
      simp at h
    | true =>
      rw [hok] at h
      simp only [if_true] at h
      simp only [Option.some.injEq, Prod.mk.injEq] at h
      obtain ⟨-, h2⟩ := h
      rw [← h2]
      exact ⟨rfl, rfl⟩

theorem runSearchesS_frame (query : String) (max_results : Nat) :
    ∀ (ws : List Window) (c : Client) (events : List GetEvent) (c2 : Client)
      (rest : List GetEvent),
      runSearchesS query max_results ws c events = some (c2, rest) →
      c2.parameters = c.parameters := by
  intro ws
  induction ws with
  | nil =>
    intro c events c2 rest h
    simp only [runSearchesS, Option.some.injEq, Prod.mk.injEq] at h
    rw [← h.1]
  | cons w ws ih =>
    intro c events c2 rest h
    simp only [runSearchesS] at h
    split at h
    · cases h
    · split at h
      · cases h
      · rename_i e rest2 x p c1 hs
        exact (ih c1 rest2 c2 rest h).trans
          (searchStateStep_frame query max_results w c e p c1 hs).1

theorem getArticlesS_frame (fetchServer : List Nat → XmlElement) {R : Type}
    (mkArticle mkBook : XmlElement → R) (article_ids : List Nat) (c : Client)
    (events : List GetEvent) (rs : List R) (c2 : Client) (rest : List GetEvent)
    (h : getArticlesS fetchServer mkArticle mkBook article_ids c events = some (rs, c2, rest)) :
    c2.parameters = c.parameters := by
  simp only [getArticlesS] at h
  split at h
  · cases h
  · split at h
    · cases h
    · rename_i e rest2 x p c1 hf
      simp only [Option.some.injEq, Prod.mk.injEq] at h
      obtain ⟨-, h2, -⟩ := h
      rw [← h2]
      exact (fetchStateStep_frame article_ids c e p c1 hf).1

theorem runFetchBatchesS_frame (fetchServer : List Nat → XmlElement) {R : Type}
    (mkArticle mkBook : XmlElement → R) :
    ∀ (bs : List (List Nat)) (c : Client) (events : List GetEvent) (rss : List (List R))
      (c2 : Client) (rest : List GetEvent),
      runFetchBatchesS fetchServer mkArticle mkBook bs c events = some (rss, c2, rest) →
      c2.parameters = c.parameters := by
  intro bs
  induction bs with
  | nil =>
    intro c events rss c2 rest h
    simp only [runFetchBatchesS, Option.some.injEq, Prod.mk.injEq] at h
    rw [← h.2.1]
  | cons b bs ih =>
    intro c events rss c2 rest h
    simp only [runFetchBatchesS] at h
    split at h
    · cases h
    · split at h
      · cases h
      · rename_i x1 rs c1 ev1 hg x2 rss2 c3 ev2 hr
        simp only [Option.some.injEq, Prod.mk.injEq] at h
        obtain ⟨-, h2, -⟩ := h
        rw [← h2]
        exact (ih c1 ev1 rss2 c3 ev2 hr).trans
          (getArticlesS_frame fetchServer mkArticle mkBook b c events rs c1 ev1 hg)

theorem queryPublicationIdsS_frame (server : Server) (query : String) (max_results fuel : Nat)
    (c : Client) (events : List GetEvent) (ids : List Nat) (c2 : Client)
    (rest : List GetEvent)
    (h : queryPublicationIdsS server query max_results fuel c events = some (ids, c2, rest)) :
    c2.parameters = c.parameters := by
  simp only [queryPublicationIdsS] at h
  split at h
  · cases h
  · split at h
    · cases h
    · rename_i x1 ids1 trace hg x2 c1 rest1 hr
      simp only [Option.some.injEq, Prod.mk.injEq] at h
      obtain ⟨-, h2, -⟩ := h
      rw [← h2]
      exact runSearchesS_frame query max_results trace c events c1 rest1 hr

theorem getPublicationsFromIdsS_frame (fetchServer : List Nat → XmlElement) {R : Type}
    (mkArticle mkBook : XmlElement → R) (article_ids : List Nat) (c : Client)
    (events : List GetEvent) (rs : List R) (c2 : Client) (rest : List GetEvent)
    (h : getPublicationsFromIdsS fetchServer mkArticle mkBook article_ids c events
      = some (rs, c2, rest)) :
    c2.parameters = c.parameters := by
  simp only [getPublicationsFromIdsS] at h
  split at h
  · cases h
  · rename_i x1 rss c1 ev1 hr
    simp only [Option.some.injEq, Prod.mk.injEq] at h
    obtain ⟨-, h2, -⟩ := h
    rw [← h2]
    exact runFetchBatchesS_frame fetchServer mkArticle mkBook (batches article_ids 250)
      c events rss c1 ev1 hr

/-- C8 (amended): every executed call mutates the rate limiter's timestamp
log in place (the admission check prunes it and a successful request
appends the request time), but the client's stored default parameter map is
never modified by any public operation: every operation starts from
`self.parameters.copy()` (line 139 for the total-count lookup, line 255 for
each search request of id resolution, line 218 for each fetch request), so
all parameter assignments — including `retmode` inside `_get` (line 190) —
hit the per-call copy.  The conjuncts cover, in order: each single search
request, each single fetch request (both with the exact prune-and-append
log law), `getTotalResultsCount`, `query_publication_ids`,
`get_publications_from_ids`, `query` and `batch_query`. -/
theorem c8_parameters_frame :
    (∀ (query : String) (max_results : Nat) (w : Window) (c : Client) (e : GetEvent)
        (p : List (String × Param)) (c2 : Client),
        searchStateStep query max_results w c e = some (p, c2) →
        c2.parameters = c.parameters ∧
        c2.requestsMade = pruneRequests e.tCheck c.requestsMade ++ [e.tExec]) ∧
    (∀ (article_ids : List Nat) (c : Client) (e : GetEvent) (p : List (String × Param))
        (c2 : Client),
        fetchStateStep article_ids c e = some (p, c2) →
        c2.parameters = c.parameters ∧
        c2.requestsMade = pruneRequests e.tCheck c.requestsMade ++ [e.tExec]) ∧
    (∀ (server : List (String × Param) → Nat) (c : Client) (query : String)
        (tCheck tExec : Int) (n : Nat) (c2 : Client),
        getTotalResultsCountM server c query tCheck tExec = some (n, c2) →
        c2.parameters = c.parameters ∧
        c2.requestsMade = pruneRequests tCheck c.requestsMade ++ [tExec]) ∧
    (∀ (server : Server) (query : String) (max_results fuel : Nat) (c : Client)
        (events : List GetEvent) (ids : List Nat) (c2 : Client) (rest : List GetEvent),
        queryPublicationIdsS server query max_results fuel c events = some (ids, c2, rest) →
        c2.parameters = c.parameters) ∧
    (∀ (R : Type) (fetchServer : List Nat → XmlElement) (mkArticle mkBook : XmlElement → R)
        (article_ids : List Nat) (c : Client) (events : List GetEvent) (rs : List R)
        (c2 : Client) (rest : List GetEvent),
        getPublicationsFromIdsS fetchServer mkArticle mkBook article_ids c events
          = some (rs, c2, rest) →
        c2.parameters = c.parameters) ∧
    (∀ (R : Type) (server : Server) (fetchServer : List Nat → XmlElement)
        (mkArticle mkBook : XmlElement → R) (query : String) (max_results fuel : Nat)
        (c : Client) (events : List GetEvent) (rs : List R) (c2 : Client)
        (rest : List GetEvent),
        queryS server fetchServer mkArticle mkBook query max_results fuel c events
          = some (rs, c2, rest) →
        c2.parameters = c.parameters) ∧
    (∀ (R : Type) (server : Server) (fetchServer : List Nat → XmlElement)
        (mkArticle mkBook : XmlElement → R) (query : String) (batch_size fuel : Nat)
        (c : Client) (events : List GetEvent) (rss : List (List R)) (c2 : Client)
        (rest : List GetEvent),
        batchQueryS server fetchServer mkArticle mkBook query batch_size fuel c events
          = some (rss, c2, rest) →
        c2.parameters = c.parameters) := by
  refine ⟨searchStateStep_frame, fetchStateStep_frame, ?_, ?_, ?_, ?_, ?_⟩
  · intro server c query tCheck tExec n c2 h
    simp only [getTotalResultsCountM] at h
    by_cases hex : (exceededRateLimit c.rateLimit tCheck c.requestsMade).fst = true
    · rw [if_pos hex] at h
      cases h
    · rw [if_neg hex] at h
      simp only [Option.some.injEq, Prod.mk.injEq] at h
      obtain ⟨-, h2⟩ := h
      rw [← h2]
      exact ⟨rfl, rfl⟩
  · intro server query max_results fuel c events ids c2 rest h
    exact queryPublicationIdsS_frame server query max_results fuel c events ids c2 rest h
  · intro R fetchServer mkArticle mkBook article_ids c events rs c2 rest h
    exact getPublicationsFromIdsS_frame fetchServer mkArticle mkBook article_ids c events
      rs c2 rest h
  · intro R server fetchServer mkArticle mkBook query max_results fuel c events rs c2 rest h
    simp only [queryS] at h
    split at h
    · cases h
    · rename_i x1 ids1 c1 ev1 hq
      exact (getPublicationsFromIdsS_frame fetchServer mkArticle mkBook ids1 c1 ev1
          rs c2 rest h).trans
        (queryPublicationIdsS_frame server query max_results fuel c events ids1 c1 ev1 hq)
  · intro R server fetchServer mkArticle mkBook query batch_size fuel c events rss c2 rest h
    simp only [batchQueryS] at h
    split at h
    · cases h
    · split at h
      · cases h
      · rename_i x1 ids1 trace hg x2 c1 ev1 hr
        exact (runFetchBatchesS_frame fetchServer mkArticle mkBook (batches ids1 batch_size)
            c1 ev1 rss c2 rest h).trans
          (runSearchesS_frame query 10000000 trace c events c1 ev1 hr)

/-- Witness for `c8_parameters_frame`: a full `query` run — one search
request resolving two ids, one fetch request for the single batch — leaves
the parameter map of a fresh client exactly as initialised. -/
theorem c8_parameters_frame_witness :
    ({ initClient "my_tool" "my_email@example.com" with requestsMade := [1] } : Client).parameters
      = (initClient "my_tool" "my_email@example.com").parameters :=
  c8_parameters_frame.2.2.2.2.2.1 Nat serverQW fetchServerW mkRecW mkRecW "q" 100 1
    (initClient "my_tool" "my_email@example.com") [⟨0, 0, true⟩, ⟨1, 1, true⟩] []
    { initClient "my_tool" "my_email@example.com" with requestsMade := [1] } []
    (by decide)

theorem batchesAux_flatten {α : Type} (n : Nat) (hn : 0 < n) :
    ∀ (counter : Nat) (l : List α), l.length ≤ counter → (batchesAux n counter l).flatten = l := by
  intro counter
  induction counter with
  | zero =>
    intro l hl
    have h0 : l = [] := List.eq_nil_of_length_eq_zero (by omega)
    simp [h0, batchesAux]
  | succ k ih =>
    intro l hl
    cases l with
    | nil => simp [batchesAux]
    | cons x xs =>
      simp only [batchesAux, List.flatten_cons]
      have hlen : (List.drop n (x :: xs)).length ≤ k := by
        simp only [List.length_drop, List.length_cons]
        simp only [List.length_cons] at hl
        omega
      rw [ih _ hlen]
      exact List.take_append_drop n (x :: xs)

theorem batches_flatten {α : Type} (l : List α) (n : Nat) (hn : 0 < n) :
    (batches l n).flatten = l :=
  batchesAux_flatten n hn l.length l (le_refl _)

theorem flatten_perm_of_forall_perm {R : Type} (f g : List Nat → List R)
    (cs : List (List Nat)) (h : ∀ b, (f b).Perm (g b)) :
    ((cs.map f).flatten).Perm ((cs.map g).flatten) := by
  induction cs with
  | nil => simp
  | cons c cs ih =>
    simp only [List.map_cons, List.flatten_cons]
    exact (h c).append ih

theorem flatten_map_flatMap {R : Type} (perId : Nat → List R) (cs : List (List Nat)) :
    (cs.map fun b => b.flatMap perId).flatten = cs.flatten.flatMap perId := by
  induction cs with
  | nil => simp
  | cons c cs ih => simp [List.flatMap_append, ih]

/-- C9: for a fixed id list, fetching the records batch by batch and
flattening yields the same multiset of records — the two flattenings are
permutations of each other — for any two positive chunk sizes, provided the
fetch endpoint returns the same records for the same ids (each batch
response is, up to order, the per-id records of the batch).  Chunking is a
pure performance parameter: every positive chunk size, including 1, 50, 250
and the list length, gives the same multiset. -/
theorem c9_fetch_chunk_size_irrelevant {R : Type} (fetchRecords : List Nat → List R)
    (perId : Nat → List R) (article_ids : List Nat) (n m : Nat)
    (hfetch : ∀ b : List Nat, (fetchRecords b).Perm (b.flatMap perId))
    (hn : 0 < n) (hm : 0 < m) :
    (fetchBatched fetchRecords article_ids n).Perm (fetchBatched fetchRecords article_ids m) := by
  have key : ∀ k, 0 < k →
      (fetchBatched fetchRecords article_ids k).Perm (article_ids.flatMap perId) := by
    intro k hk
    have h1 := flatten_perm_of_forall_perm fetchRecords (fun b => b.flatMap perId)
      (batches article_ids k) hfetch
    rw [flatten_map_flatMap, batches_flatten _ _ hk] at h1
    exact h1
  exact (key n hn).trans (key m hm).symm

/-- Witness for `c9_fetch_chunk_size_irrelevant`: three ids fetched with
chunk sizes 1 and 2 give permutation-equal record lists. -/
theorem c9_fetch_chunk_size_witness :
    (fetchBatched fetchW [1, 2, 3] 1).Perm (fetchBatched fetchW [1, 2, 3] 2) :=
  c9_fetch_chunk_size_irrelevant fetchW perIdW [1, 2, 3] 1 2
    (fun b => List.Perm.refl (fetchW b)) (by decide) (by decide)

mutual

theorem iterTag_eq_filter (tag : String) (x : XmlElement) :
    iterTag tag x = (docOrder x).filter fun e => e.tag == tag := by
  cases x with
  | element t cs =>
    rw [iterTag, docOrder, List.filter_cons, iterTagList_eq_filter tag cs]
    by_cases ht : t = tag
    · simp [ht, XmlElement.tag]
    · simp [ht, XmlElement.tag]

theorem iterTagList_eq_filter (tag : String) (cs : List XmlElement) :
    iterTagList tag cs = (docOrderList cs).filter fun e => e.tag == tag := by
  cases cs with
  | nil => rw [iterTagList, docOrderList]; rfl
  | cons c cs =>
    rw [iterTagList, docOrderList, List.filter_append, iterTag_eq_filter tag c,
      iterTagList_eq_filter tag cs]

end

/-- C10: for every fetched payload, `_getArticles` yields the decoded
journal articles first — every `PubmedArticle` element of the payload, in
document order — and then, as a second pass, the decoded book articles —
every `PubmedBookArticle` element, in document order.  The yielded order is
therefore entirely determined by the payload's own element order per record
shape (the statement does not involve the requested id order at all, so the
yield order carries no guarantee of matching it). -/
theorem c10_getArticles_payload_order {R : Type} (mkArticle mkBook : XmlElement → R)
    (root : XmlElement) :
    getArticles mkArticle mkBook root =
      ((docOrder root).filter fun e => e.tag == "PubmedArticle").map mkArticle ++
      ((docOrder root).filter fun e => e.tag == "PubmedBookArticle").map mkBook := by
  rw [getArticles, iterTag_eq_filter, iterTag_eq_filter]
